import Mathlib

/-!
# Formal model of the noctivault core (secret resolution, remote retry, local-store envelope)

This file is a shallow embedding, in Lean 4, of the core of the `noctivault`
Python package: the authenticated-encryption envelope (`noctivault/io/enc.py`),
the secret resolver (`noctivault/app/resolver.py`), the local-mock and GCP
providers (`noctivault/provider/local_mocks.py`, `noctivault/provider/gcp.py`),
the masked value/tree types (`noctivault/core/value.py`, `noctivault/tree/node.py`)
and the key-resolution chain of the loader (`noctivault/client.py`).

Python exceptions are modelled with `Except`; machine bytes are `Nat` values
(`< 256` where it matters); dictionaries are association lists in insertion
order, which matches CPython dict semantics.

The AES-GCM AEAD of the `cryptography` library is an external collaborator and
is modelled as an ideal authenticated cipher over symbolic bytes: a ciphertext
is the plaintext followed by an unforgeable tag symbol binding the key, nonce,
AAD and plaintext, and decryption succeeds exactly when all of these match.
Likewise Argon2id (`argon2.low_level.hash_secret_raw`) is modelled as an
uninterpreted injective key-derivation symbol.  Everything else is translated
directly from the Python sources.
-/

namespace Noctivault

/-! ## Symbolic key material and bytes (ideal AEAD / KDF model) -/

/-- Key material for the ideal AEAD.  `bytes` is a raw symmetric key (the
key-file profile passes the key file's contents); `kdf` is the symbolic result
of Argon2id over a passphrase, salt and cost parameters (`_kdf_argon2id` in
`io/enc.py`).  Treating `kdf` as a constructor models the KDF as injective. -/
inductive KeyM where
  | bytes (k : List Nat)
  | kdf (pw : String) (salt : List Nat) (timeCost memoryCost parallelism : Nat)
  deriving DecidableEq, Repr

/-- A byte of an envelope.  `raw n` is an ordinary byte value; `tag` is the
ideal AEAD authentication tag produced by `AESGCM.encrypt`, binding the key,
nonce, AAD and plaintext (all plain byte strings).  A real tag is 16 opaque
bytes; the ideal model collapses it to one unforgeable symbol. -/
inductive SByte where
  | raw (n : Nat)
  | tag (key : KeyM) (nonce : List Nat) (aad : List Nat) (pt : List Nat)
  deriving DecidableEq, Repr

/-- The raw-byte view of an envelope byte: Python indexing of `bytes` always
yields an integer.  A `tag` symbol has no numeric value; it is mapped to `0`
(never exercised on envelopes produced by the seal functions, whose header
fields are raw bytes). -/
def SByte.toNatVal : SByte → Nat
  | .raw n => n
  | .tag _ _ _ _ => 0

/-- Lift a plain byte string into envelope bytes. -/
def rawBytes (l : List Nat) : List SByte := l.map SByte.raw

/-- Ideal AEAD encryption (`AESGCM.encrypt(nonce, plaintext, aad)`):
the ciphertext-plus-tag is the plaintext followed by the tag symbol. -/
def aeadEncrypt (key : KeyM) (nonce : List Nat) (pt : List Nat) (aad : List Nat) :
    List SByte :=
  rawBytes pt ++ [SByte.tag key nonce aad pt]

/-- Ideal AEAD decryption (`AESGCM.decrypt(nonce, ct, aad)`): succeeds exactly
when the trailing tag binds the same key, nonce, AAD and the preceding
plaintext bytes; returns the plaintext byte string. -/
def aeadDecrypt (key : KeyM) (nonce : List SByte) (ct : List SByte) (aad : List Nat) :
    Option (List Nat) :=
  match ct.getLast? with
  | some (SByte.tag k n a p) =>
      if k = key ∧ nonce = rawBytes n ∧ a = aad ∧ ct.dropLast = rawBytes p then
        some p
      else none
  | _ => none

/-! ## Shared scalar types (`noctivault/schema/models.py`) -/

/-- The closed `Platform` enumeration (currently only `GOOGLE = "google"`). -/
inductive PlatformM where
  | google
  deriving DecidableEq, Repr

/-- The string value of a platform. -/
def PlatformM.str : PlatformM → String
  | .google => "google"

/-- A secret version selector: `int | Literal["latest"]`. -/
inductive VersionM where
  | num (n : Nat)
  | latest
  deriving DecidableEq, Repr

/-! ## Errors (`noctivault/core/errors.py` plus Python built-in exceptions) -/

/-- The exceptions the modelled code can raise.  The first block mirrors
`core/errors.py`; the second block are Python built-ins that escape from the
code (`IndexError` from header indexing, `TypeError` from `in` on a
non-container, `FileNotFoundError` from `Path.read_bytes`).
`scriptExhausted` is a model artifact marking that the injected response
script of the fake GCP client ran out (the mock's own `IndexError`). -/
inductive Err where
  | invalidEncHeader (msg : String)
  | decryptError (msg : String)
  | duplicatePath (path : String)
  | typeCast (value : String)
  | missingLocalMockKey (platform project name : String)
  | missingLocalMockKeyVer (platform project name : String) (version : Nat)
  | missingRemoteSecret (project name : String) (version : VersionM)
  | authorizationError
  | remoteArgument (msg : String)
  | remoteUnavailable
  | remoteDecode (msg : String)
  | missingKeyMaterial (msg : String)
  | indexError
  | typeError
  | attributeError
  | fileNotFound (path : String)
  | scriptExhausted
  deriving DecidableEq, Repr

/-! ## The local-store envelope (`noctivault/io/enc.py`) -/

/-- `MAGIC = b"NVLE1"`. -/
def MAGIC : List Nat := [78, 86, 76, 69, 49]

/-- `NONCE_SIZE = 12`. -/
def NONCE_SIZE : Nat := 12

/-- `seal_with_key(plaintext, key)`.  The 12 random bytes drawn by
`os.urandom` are passed explicitly as `nonce`.  Legacy layout:
`MAGIC + nonce + ct` with no mode byte, `AAD = MAGIC`. -/
def seal_with_key (plaintext : List Nat) (key : KeyM) (nonce : List Nat) : List SByte :=
  rawBytes MAGIC ++ rawBytes nonce ++ aeadEncrypt key nonce plaintext MAGIC

/-- `unseal_with_key(data, key)`: magic check, optional mode-byte sniffing
(`data[5] in (0x00, 0x01)`), then AEAD decryption of `nonce = data[idx:idx+12]`
and `ct = data[idx+12:]` with `AAD = MAGIC`;
any decryption failure is `DecryptError("decryption failed")`. -/
def unseal_with_key (data : List SByte) (key : KeyM) : Except Err (List Nat) :=
  if ¬ (rawBytes MAGIC).isPrefixOf data then
    .error (.invalidEncHeader "missing or invalid magic header")
  else if data.get? 5 = some (SByte.raw 1) then
    .error (.invalidEncHeader "not key-file mode payload")
  else
    let idx : Nat := if data.get? 5 = some (SByte.raw 0) then 6 else 5
    let nonce := (data.drop idx).take NONCE_SIZE
    let ct := data.drop (idx + NONCE_SIZE)
    match aeadDecrypt key nonce ct MAGIC with
    | some pt => .ok pt
    | none => .error (.decryptError "decryption failed")

/-- `_kdf_argon2id(passphrase, salt, time_cost, memory_cost, parallelism)`,
idealized as the injective `KeyM.kdf` symbol.  (The Python function silently
falls back to Scrypt when the argon2 module is absent; the model takes the
primary Argon2id path.) -/
def kdfArgon2id (pw : String) (salt : List Nat) (timeCost memoryCost parallelism : Nat) :
    KeyM :=
  KeyM.kdf pw salt timeCost memoryCost parallelism

/-- `seal_with_passphrase(plaintext, passphrase)` with the random salt
(16 bytes) and nonce (12 bytes) passed explicitly.  Layout:
`MAGIC | mode=0x01 | kdf=0x01 | tc(1) | par(1) | mc(4 BE) | saltLen(1) | salt | nonce | ct`,
with `time_cost=2`, `memory_cost=2^16`, `parallelism=1`, `AAD = MAGIC`. -/
def seal_with_passphrase (plaintext : List Nat) (pw : String)
    (salt : List Nat) (nonce : List Nat) : List SByte :=
  let timeCost := 2
  let memoryCost := 2 ^ 16
  let parallelism := 1
  let key := kdfArgon2id pw salt timeCost memoryCost parallelism
  rawBytes MAGIC
    ++ rawBytes [1, 1, timeCost % 256, parallelism % 256]
    ++ rawBytes [(memoryCost / 2 ^ 24) % 256, (memoryCost / 2 ^ 16) % 256,
                 (memoryCost / 2 ^ 8) % 256, memoryCost % 256]
    ++ rawBytes [salt.length]
    ++ rawBytes salt
    ++ rawBytes nonce
    ++ aeadEncrypt key nonce plaintext MAGIC

/-- `int.from_bytes(bs, "big")`. -/
def fromBytesBE (bs : List SByte) : Nat :=
  bs.foldl (fun acc b => acc * 256 + b.toNatVal) 0

/-- `unseal_with_passphrase(data, passphrase)`.  Header indexing uses Python
`bytes[i]`, which raises `IndexError` past the end (`Err.indexError`); slices
(`data[a:b]`) silently truncate. -/
def unseal_with_passphrase (data : List SByte) (pw : String) : Except Err (List Nat) :=
  if ¬ (rawBytes MAGIC).isPrefixOf data then
    .error (.invalidEncHeader "missing or invalid magic header")
  else
    -- idx = 5; `len(data) <= idx or data[idx] != MODE_PASSPHRASE`
    match data.get? 5 with
    | none => .error (.invalidEncHeader "not passphrase-encoded payload")
    | some b =>
      if b ≠ SByte.raw 1 then .error (.invalidEncHeader "not passphrase-encoded payload")
      else
        -- idx = 6; kdf_id = data[idx]
        match data.get? 6 with
        | none => .error .indexError
        | some kdfId =>
          if kdfId ≠ SByte.raw 1 then .error (.invalidEncHeader "unsupported KDF id")
          else
            -- idx = 7
            match data.get? 7 with
            | none => .error .indexError
            | some tcB =>
              match data.get? 8 with
              | none => .error .indexError
              | some parB =>
                let memoryCost := fromBytesBE ((data.drop 9).take 4)
                match data.get? 13 with
                | none => .error .indexError
                | some slB =>
                  let timeCost := tcB.toNatVal
                  let parallelism := parB.toNatVal
                  let sl := slB.toNatVal
                  let salt := ((data.drop 14).take sl).map SByte.toNatVal
                  let nonce := (data.drop (14 + sl)).take NONCE_SIZE
                  let ct := data.drop (14 + sl + NONCE_SIZE)
                  let key := kdfArgon2id pw salt timeCost memoryCost parallelism
                  match aeadDecrypt key nonce ct MAGIC with
                  | some pt => .ok pt
                  | none => .error (.decryptError "decryption failed")

/-! ## Secret values (`noctivault/core/value.py`) -/

/-- The `AllowedType` literal `"str" | "int"`. -/
inductive CastT where
  | str
  | int
  deriving DecidableEq, Repr

/-- `SecretValue(raw, type_)`: an immutable raw string with a declared type. -/
structure SecretValueM where
  raw : String
  ty : CastT
  deriving DecidableEq, Repr

/-- A Python value a cast can produce (`str` or `int`). -/
inductive PyScalar where
  | str (s : String)
  | int (n : Int)
  deriving DecidableEq, Repr

/-- Python `int(raw)` on a string: optional surrounding ASCII whitespace, an
optional sign, then at least one decimal digit.  (Python additionally accepts
underscore digit grouping, which no value in this development exercises.)
Returns `none` where Python raises `ValueError`. -/
def pyIntParse (s : String) : Option Int :=
  let chars := s.toList
  let chars := chars.dropWhile (fun c => c = ' ' ∨ c = '\t' ∨ c = '\n' ∨ c = '\r')
  let chars := (chars.reverse.dropWhile (fun c => c = ' ' ∨ c = '\t' ∨ c = '\n' ∨ c = '\r')).reverse
  let (neg, digits) :=
    match chars with
    | '-' :: rest => (true, rest)
    | '+' :: rest => (false, rest)
    | rest => (false, rest)
  if digits = [] ∨ ¬ digits.all Char.isDigit then none
  else
    let n : Nat := digits.foldl (fun acc c => acc * 10 + (c.toNat - 48)) 0
    some (if neg then -(n : Int) else (n : Int))

/-- `SecretValue.cast()`: identity for `"str"`, `int(raw)` for `"int"`,
raising `TypeCastError(raw)` on parse failure. -/
def SecretValueM.cast (v : SecretValueM) : Except Err PyScalar :=
  match v.ty with
  | .str => .ok (.str v.raw)
  | .int =>
    match pyIntParse v.raw with
    | some n => .ok (.int n)
    | none => .error (.typeCast v.raw)

/-- `SecretValue.__repr__` / `__str__`: always the literal mask. -/
def SecretValueM.pyRepr (_ : SecretValueM) : String := "***"

/-- `_LeafProxy.__repr__` / `__str__` (`tree/node.py`): always the mask. -/
def leafProxyRepr (_ : SecretValueM) : String := "***"

/-! ## The secret tree (`noctivault/tree/node.py`) -/

/-- A value stored in the resolver's nested output dict: either a
`SecretValue` leaf or a nested dict (association list in insertion order). -/
inductive PyVal where
  | secret (v : SecretValueM)
  | dict (entries : List (String × PyVal))

/-- Result of `SecretNode.to_dict`: a nested plain mapping whose leaves are
strings or integers. -/
inductive PyOut where
  | str (s : String)
  | int (n : Int)
  | dict (entries : List (String × PyOut))

/-- `SecretNode.to_dict(reveal)`: interior dicts are walked recursively;
unrevealed leaves become `"***"`, revealed leaves become `cast()` results.
A revealed leaf whose cast fails raises `TypeCastError` (never reachable for
trees built by `resolve`, which validates every cast eagerly). -/
def toDict (reveal : Bool) : PyVal → Except Err PyOut
  | .secret v =>
    if reveal then
      match v.cast with
      | .ok (.str s) => .ok (.str s)
      | .ok (.int n) => .ok (.int n)
      | .error e => .error e
    else .ok (.str "***")
  | .dict es => (toDictList reveal es).map PyOut.dict
where
  /-- Walk of the entry list of an interior dict, preserving order. -/
  toDictList (reveal : Bool) : List (String × PyVal) → Except Err (List (String × PyOut))
  | [] => .ok []
  | (k, v) :: rest => do
    let v' ← toDict reveal v
    let rest' ← toDictList reveal rest
    .ok ((k, v') :: rest')

/-- Python `repr` of a string (as used when formatting a dict).  Quoting and
escaping of special characters is abbreviated to wrapping in single quotes;
the development only renders plain identifier-like keys and the mask. -/
def pyStrRepr (s : String) : String := "'" ++ s ++ "'"

/-- Python `repr` of the nested mapping returned by `to_dict`. -/
def PyOut.pyRepr : PyOut → String
  | .str s => pyStrRepr s
  | .int n => toString n
  | .dict es => "\x7b" ++ String.intercalate ", " (pyReprList es) ++ "\x7d"
where
  /-- Rendered `key: value` items of a dict, in order. -/
  pyReprList : List (String × PyOut) → List String
  | [] => []
  | (k, v) :: rest => (pyStrRepr k ++ ": " ++ v.pyRepr) :: pyReprList rest

/-- `SecretNode.__repr__` / `__str__`:
`f"SecretNode({self.to_dict(False)})"`. -/
def secretNodeRepr (data : List (String × PyVal)) : String :=
  "SecretNode(" ++
    (match toDict false (.dict data) with
     | .ok o => o.pyRepr
     | .error _ => "") ++ ")"

/-- The key structure of a tree: leaves erased to a unit marker.  Two trees
have the same shape exactly when they carry the same nested key structure. -/
def shape : PyVal → PyOut
  | .secret _ => .str "leaf"
  | .dict es => .dict (shapeList es)
where
  /-- Shapes of the entries of an interior dict. -/
  shapeList : List (String × PyVal) → List (String × PyOut)
  | [] => []
  | (k, v) :: rest => (k, shape v) :: shapeList rest

/-! ## Local mock provider (`noctivault/provider/local_mocks.py`) -/

/-- The provider's index key `(platform, project, name)`. -/
def MockKey := PlatformM × String × String
deriving DecidableEq, Repr

/-- The provider's index: a dict from key to a per-key dict `version -> value`
(both in insertion order, as CPython dicts are). -/
def MockIndex := List (MockKey × List (Nat × String))

/-- `max(versions.keys())` on a non-empty dict. -/
def maxVersionKey (versions : List (Nat × String)) : Nat :=
  (versions.map Prod.fst).foldl max 0

/-- `LocalMocksProvider.fetch(platform, project, name, version)`:
exact index lookup (`MissingLocalMockError(key)` when the key is absent or its
version dict is empty, since `if not versions` covers both), `"latest"`
selecting the maximum integer version key, otherwise an exact version match
(`MissingLocalMockError((key, resolved))` on a miss). -/
def localMocksFetch (index : MockIndex) (platform : PlatformM) (project name : String)
    (version : VersionM) : Except Err String :=
  match index.lookup (platform, project, name) with
  | none => .error (.missingLocalMockKey platform.str project name)
  | some versions =>
    if versions = [] then .error (.missingLocalMockKey platform.str project name)
    else
      let resolved :=
        match version with
        | .latest => maxVersionKey versions
        | .num n => n
      match versions.lookup resolved with
      | some value => .ok value
      | none => .error (.missingLocalMockKeyVer platform.str project name resolved)

/-! ## Remote provider (`noctivault/provider/gcp.py`) -/

/-- The backend exception kinds `GcpSecretManagerProvider.fetch` classifies
(`google.api_core.exceptions`).  `resourceExhausted` optionally carries
`retry_info` as `(seconds, nanos)`; `other` is any exception matching none of
the classified types. -/
inductive GExc where
  | notFound
  | serviceUnavailable
  | internalServerError
  | badGateway
  | resourceExhausted (retryInfo : Option (Nat × Nat))
  | permissionDenied
  | unauthenticated
  | invalidArgument
  | failedPrecondition
  | deadlineExceeded
  | gatewayTimeout
  | other
  deriving DecidableEq, Repr

/-- One scripted outcome of `client.access_secret_version`: a successful
response carrying payload bytes, or a raised backend exception. -/
inductive GResp where
  | ok (data : List Nat)
  | exc (e : GExc)
  deriving DecidableEq, Repr

/-- The resource identifier `f"projects/{project}/secrets/{name}/versions/{ver}"`. -/
def gcpResource (project name : String) (version : VersionM) : String :=
  "projects/" ++ project ++ "/secrets/" ++ name ++ "/versions/" ++
    (match version with
     | .latest => "latest"
     | .num n => toString n)

/-- The retry loop of `GcpSecretManagerProvider.fetch`, driven by the script
of backend outcomes consumed one per attempt (the injected test client).
Returns the outcome together with the trace of backoff sleeps handed to the
injected sleeper, in nanoseconds (the float delays `0.2 * 2**(a-1)` and
`1.0 * 2**(a-1)` seconds are exact in binary floating point up to the 0.2
literal, and are modelled as exact nanosecond counts: 0.2 s = 200000000 ns). -/
def gcpFetchGo (project name : String) (version : VersionM) (script : List GResp)
    (attempts : Nat) : Except Err (List Nat) × List Nat :=
  match script with
  | [] => (.error .scriptExhausted, [])
  | r :: rest =>
    let attempts := attempts + 1
    match r with
    | .ok data => (.ok data, [])
    | .exc e =>
      match e with
      | .notFound =>
        -- 404: short retry once (total 2 attempts), fixed 0.2 s delay
        if attempts ≤ 1 then
          let (res, sleeps) := gcpFetchGo project name version rest attempts
          (res, 200000000 :: sleeps)
        else (.error (.missingRemoteSecret project name version), [])
      | .serviceUnavailable | .internalServerError | .badGateway =>
        -- 5xx bucket: up to 3 attempts, backoff 0.2 * 2**(attempts-1)
        if attempts ≤ 3 then
          let delay := 200000000 * 2 ^ (attempts - 1)
          let (res, sleeps) := gcpFetchGo project name version rest attempts
          (res, delay :: sleeps)
        else (.error .remoteUnavailable, [])
      | .resourceExhausted retryInfo =>
        -- 429: up to 3 attempts; prefer RetryInfo, else 1.0 * 2**(attempts-1)
        if attempts ≤ 3 then
          let delay :=
            match retryInfo with
            | some (sec, nanos) =>
              let d := sec * 1000000000 + nanos
              if d = 0 then 1000000000 * 2 ^ (attempts - 1) else d
            | none => 1000000000 * 2 ^ (attempts - 1)
          let (res, sleeps) := gcpFetchGo project name version rest attempts
          (res, delay :: sleeps)
        else (.error .remoteUnavailable, [])
      | .permissionDenied | .unauthenticated => (.error .authorizationError, [])
      | .invalidArgument | .failedPrecondition => (.error (.remoteArgument ""), [])
      | .deadlineExceeded | .gatewayTimeout => (.error .remoteUnavailable, [])
      | .other => (.error (.decryptError "remote access failed"), [])

/-- A byte in the continuation range `0x80..0xBF`. -/
def utf8Cont (b : Nat) : Bool := decide (0x80 ≤ b ∧ b ≤ 0xBF)

/-- Strict UTF-8 validity of a byte string, as checked by Python
`bytes.decode("utf-8")` (rejecting overlong forms, surrogates and
codepoints above U+10FFFF). -/
def utf8Valid : List Nat → Bool
  | [] => true
  | b :: rest =>
    if b < 0x80 then utf8Valid rest
    else if 0xC2 ≤ b ∧ b ≤ 0xDF then
      match rest with
      | c1 :: rest1 => utf8Cont c1 && utf8Valid rest1
      | [] => false
    else if 0xE0 ≤ b ∧ b ≤ 0xEF then
      match rest with
      | c1 :: c2 :: rest2 =>
        let lo1 : Nat := if b = 0xE0 then 0xA0 else 0x80
        let hi1 : Nat := if b = 0xED then 0x9F else 0xBF
        decide (lo1 ≤ c1 ∧ c1 ≤ hi1) && utf8Cont c2 && utf8Valid rest2
      | _ => false
    else if 0xF0 ≤ b ∧ b ≤ 0xF4 then
      match rest with
      | c1 :: c2 :: c3 :: rest3 =>
        let lo1 : Nat := if b = 0xF0 then 0x90 else 0x80
        let hi1 : Nat := if b = 0xF4 then 0x8F else 0xBF
        decide (lo1 ≤ c1 ∧ c1 ≤ hi1) && utf8Cont c2 && utf8Cont c3 && utf8Valid rest3
      | _ => false
    else false

/-- `GcpSecretManagerProvider.fetch`: platform guard, the retry loop, then
`data.decode("utf-8")` (`RemoteDecodeError` when the payload is not valid
UTF-8).  The decoded Python string is represented by its UTF-8 bytes. -/
def gcpFetch (platform : PlatformM) (project name : String) (version : VersionM)
    (script : List GResp) : Except Err (List Nat) × List Nat :=
  if platform ≠ PlatformM.google then (.error (.remoteArgument "unsupported platform"), [])
  else
    match gcpFetchGo project name version script 0 with
    | (.ok data, sleeps) =>
      if utf8Valid data then (.ok data, sleeps)
      else (.error (.remoteDecode "secret payload is not valid UTF-8"), sleeps)
    | (res, sleeps) => (res, sleeps)

/-! ## Secret resolver (`noctivault/app/resolver.py`) -/

/-- `SecretRef` after validation: destination leaf key `cast`, source secret
name `ref`, version selector and declared type (`None` means `"str"`, applied
by `ref.type or "str"` in the resolver). -/
structure SecretRefM where
  platform : PlatformM
  gcp_project_id : String
  cast : String
  ref : String
  version : VersionM
  ty : Option CastT
  deriving Repr

/-- One entry of a reference document: a bare leaf `SecretRef` or a
`SecretGroup` of children under a key. -/
inductive RefEntry where
  | ref (r : SecretRefM)
  | group (key : String) (children : List SecretRefM)

/-- The flattening loop at the top of `SecretResolver.resolve`: a leaf
contributes `([entry.cast], entry)`, a group contributes
`([entry.key, child.cast], child)` per child, preserving declaration order. -/
def flattenRefs (entries : List RefEntry) : List (List String × SecretRefM) :=
  entries.flatMap fun e =>
    match e with
    | .ref r => [([r.cast], r)]
    | .group key children => children.map fun c => ([key, c.cast], c)

/-- `".".join(path)`. -/
def joinDot (path : List String) : String := String.intercalate "." path

/-- Replace the value stored at an existing key of a dict, keeping its slot. -/
def assocUpdate : List (String × PyVal) → String → PyVal → List (String × PyVal)
  | [], _, _ => []
  | (k, w) :: rest, key, v =>
    if k = key then (k, v) :: rest else (k, w) :: assocUpdate rest key v

/-- The walk of `SecretResolver._place` over the remaining path segments.
`fullPath` is the original `path` (the `DuplicatePathError` message joins the
full path).  For each non-final segment the code runs
`cur = cur.setdefault(part, {})`; when the current slot holds a `SecretValue`
the subsequent `leaf in cur` raises `TypeError` (one segment left) and a
further `cur.setdefault` would raise `AttributeError`; an empty path would
raise `IndexError` from `path[-1]`. -/
def placeGo (tree : List (String × PyVal)) (remaining fullPath : List String)
    (v : SecretValueM) : Except Err (List (String × PyVal)) :=
  match remaining with
  | [] => .error .indexError
  | [leaf] =>
    if (tree.lookup leaf).isSome then .error (.duplicatePath (joinDot fullPath))
    else .ok (tree ++ [(leaf, .secret v)])
  | part :: rest =>
    match tree.lookup part with
    | some (.dict sub) =>
      match placeGo sub rest fullPath v with
      | .ok sub' => .ok (assocUpdate tree part (.dict sub'))
      | .error e => .error e
    | some (.secret _) =>
      match rest with
      | [_] => .error .typeError
      | _ => .error .attributeError
    | none =>
      match placeGo [] rest fullPath v with
      | .ok sub' => .ok (tree ++ [(part, .dict sub')])
      | .error e => .error e

/-- `SecretResolver._place(tree, path, value)`. -/
def place (tree : List (String × PyVal)) (path : List String) (v : SecretValueM) :
    Except Err (List (String × PyVal)) :=
  placeGo tree path path v

/-- A provider capability: `fetch(platform, project, name, version)`. -/
def Provider := PlatformM → String → String → VersionM → Except Err String

/-- A fetch call issued to the provider, in issue order. -/
def FetchCall := PlatformM × String × String × VersionM
deriving DecidableEq, Repr

/-- One iteration of the body of the `for path_parts, ref in refs` loop of
`SecretResolver.resolve`: fetch the raw value, build the `SecretValue`
(`type_ = ref.type or "str"`), eagerly validate the cast, and place the value
into the accumulating nested dict. -/
def resolveStep (provider : Provider) (out : List (String × PyVal))
    (pr : List String × SecretRefM) : Except Err (List (String × PyVal)) :=
  match provider pr.2.platform pr.2.gcp_project_id pr.2.ref pr.2.version with
  | .error e => .error e
  | .ok raw =>
    let val : SecretValueM := ⟨raw, pr.2.ty.getD .str⟩
    match val.cast with
    | .error e => .error e
    | .ok _ => place out pr.1 val

/-- The resolver loop over the flattened reference list, also recording the
trace of provider fetches actually issued (in order). -/
def resolveGo (provider : Provider) (pairs : List (List String × SecretRefM))
    (out : List (String × PyVal)) :
    Except Err (List (String × PyVal)) × List FetchCall :=
  match pairs with
  | [] => (.ok out, [])
  | pr :: rest =>
    let call : FetchCall := (pr.2.platform, pr.2.gcp_project_id, pr.2.ref, pr.2.version)
    match resolveStep provider out pr with
    | .error e => (.error e, [call])
    | .ok out' =>
      let (res, calls) := resolveGo provider rest out'
      (res, call :: calls)

/-- `SecretResolver.resolve(refs)`: flatten, process every entry in
declaration order, and wrap the finished dict in a `SecretNode` (represented
by the dict itself).  The second component is the trace of issued fetches. -/
def resolveT (provider : Provider) (entries : List RefEntry) :
    Except Err (List (String × PyVal)) × List FetchCall :=
  resolveGo provider (flattenRefs entries) []

/-- The untraced fold of `resolveStep` over a list of flattened entries,
starting from an accumulated dict (used to state where processing first
fails). -/
def resolveFold (provider : Provider) (pairs : List (List String × SecretRefM))
    (out : List (String × PyVal)) : Except Err (List (String × PyVal)) :=
  match pairs with
  | [] => .ok out
  | pr :: rest =>
    match resolveStep provider out pr with
    | .error e => .error e
    | .ok out' => resolveFold provider rest out'

/-- The fetch call an entry gives rise to. -/
def callOf (pr : List String × SecretRefM) : FetchCall :=
  (pr.2.platform, pr.2.gcp_project_id, pr.2.ref, pr.2.version)

/-! ## Key-file resolution (`noctivault/client.py`, `Noctivault._load_local_key`) -/

/-- Python truthiness of an optional string: `None` and `""` are falsy. -/
def strTruthy : Option String → Option String
  | some "" => none
  | o => o

/-- `Path(p).read_bytes()` over a filesystem snapshot: the file's bytes, or a
raised `FileNotFoundError`. -/
def readBytes (fs : String → Option (List Nat)) (p : String) : Except Err (List Nat) :=
  match fs p with
  | some b => .ok b
  | none => .error (.fileNotFound p)

/-- `Noctivault._load_local_key(directory)`.  `keyFilePath` is
`settings.local_enc.key_file_path` (when settings carry one), `envKeyFile` is
`os.getenv("NOCTIVAULT_LOCAL_KEY_FILE")`; `fs` is the filesystem snapshot
(path-string keyed; `Path.expanduser` is treated as the identity on the
already-expanded paths of the snapshot).  Candidates 1 and 2 are read
unconditionally when configured; candidates 3 and 4 are probed with
`exists()` first. -/
def load_local_key (keyFilePath envKeyFile : Option String) (directory home : String)
    (fs : String → Option (List Nat)) : Except Err (List Nat) :=
  match strTruthy keyFilePath with
  | some p => readBytes fs p
  | none =>
    match strTruthy envKeyFile with
    | some p => readBytes fs p
    | none =>
      let localPath := directory ++ "/local.key"
      if (fs localPath).isSome then readBytes fs localPath
      else
        let defaultPath := home ++ "/.config/noctivault/local.key"
        if (fs defaultPath).isSome then readBytes fs defaultPath
        else .error (.missingKeyMaterial "local key file not found")

/-! ## Helper lemmas -/

/-- Folding `max` over elements all bounded by the seed leaves the seed. -/
lemma foldl_max_const (c : Nat) (xs : List Nat) (h : ∀ x ∈ xs, x ≤ c) :
    xs.foldl max c = c := by
  induction xs with
  | nil => rfl
  | cons x xs ih =>
    rw [List.foldl_cons, Nat.max_eq_left (h x (List.mem_cons_self x xs))]
    exact ih fun y hy => h y (List.mem_cons_of_mem x hy)

/-- Folding `max` over a list containing its upper bound yields that bound. -/
lemma foldl_max_eq (xs : List Nat) : ∀ (m a : Nat), a ≤ m → m ∈ xs →
    (∀ x ∈ xs, x ≤ m) → xs.foldl max a = m := by
  induction xs with
  | nil => intro m a _ hm _; cases hm
  | cons x xs ih =>
    intro m a ha hm hall
    rw [List.foldl_cons]
    rcases List.mem_cons.mp hm with heq | hmem
    · have h1 : max a x = m := by rw [← heq]; exact Nat.max_eq_right ha
      rw [h1]
      exact foldl_max_const m xs fun y hy => hall y (List.mem_cons_of_mem x hy)
    · exact ih m (max a x)
        (Nat.max_le.mpr ⟨ha, hall x (List.mem_cons_self x xs)⟩) hmem
        fun y hy => hall y (List.mem_cons_of_mem x hy)

/-- In a version dict with distinct keys, `lookup` finds a member entry. -/
lemma lookup_eq_some_of_mem (vs : List (Nat × String)) (m : Nat) (v : String)
    (hnd : (vs.map Prod.fst).Nodup) (hmem : (m, v) ∈ vs) : vs.lookup m = some v := by
  induction vs with
  | nil => cases hmem
  | cons kv rest ih =>
    obtain ⟨k, w⟩ := kv
    rcases List.mem_cons.mp hmem with heq | hmem'
    · cases heq
      simp [List.lookup]
    · have hk : ¬ (k = m) := by
        intro h
        subst h
        exact (List.nodup_cons.mp hnd).1
          (List.mem_map.mpr ⟨(k, v), hmem', rfl⟩)
      have hbeq : (m == k) = false := by
        simp [beq_eq_false_iff_ne]
        exact fun h => hk h.symm
      simp [List.lookup, hbeq]
      exact ih (List.nodup_cons.mp hnd).2 hmem'

/-- `lookup` misses exactly when no key matches. -/
lemma lookup_eq_none_of_forall (vs : List (Nat × String)) (n : Nat)
    (h : ∀ kv ∈ vs, kv.1 ≠ n) : vs.lookup n = none := by
  induction vs with
  | nil => rfl
  | cons kv rest ih =>
    obtain ⟨k, w⟩ := kv
    have hne : k ≠ n := by simpa using h (k, w) (List.mem_cons_self _ _)
    have hk : (n == k) = false := by
      simp only [beq_eq_false_iff_ne]
      exact fun heq => hne heq.symm
    simp only [List.lookup, hk]
    exact ih fun kv hkv => h kv (List.mem_cons_of_mem _ hkv)

/-! ## C8 — local mock lookup -/

/-- C8: for a key present in the local-mock index with a non-empty version
dict, `fetch` with `"latest"` returns the value under the maximum integer
version key, `fetch` with a present integer version returns the stored value,
`fetch` with an absent version raises `MissingLocalMockError` naming key and
version, and `fetch` with an absent key raises `MissingLocalMockError` naming
the key. -/
theorem localMocksFetch_spec (index : MockIndex) (platform : PlatformM)
    (project name : String) :
    (∀ versions m v, index.lookup (platform, project, name) = some versions →
       (versions.map Prod.fst).Nodup → (m, v) ∈ versions →
       (∀ kv ∈ versions, kv.1 ≤ m) →
       localMocksFetch index platform project name .latest = .ok v) ∧
    (∀ versions n v, index.lookup (platform, project, name) = some versions →
       (versions.map Prod.fst).Nodup → (n, v) ∈ versions →
       localMocksFetch index platform project name (.num n) = .ok v) ∧
    (∀ versions n, index.lookup (platform, project, name) = some versions →
       versions ≠ [] → (∀ kv ∈ versions, kv.1 ≠ n) →
       localMocksFetch index platform project name (.num n) =
         .error (.missingLocalMockKeyVer platform.str project name n)) ∧
    (∀ version, index.lookup (platform, project, name) = none →
       localMocksFetch index platform project name version =
         .error (.missingLocalMockKey platform.str project name)) := by
  refine ⟨?_, ?_, ?_, ?_⟩
  · intro versions m v hidx hnd hmem hmax
    have hne : versions ≠ [] := by
      intro h
      subst h
      cases hmem
    have hres : maxVersionKey versions = m := by
      unfold maxVersionKey
      exact foldl_max_eq _ m 0 (Nat.zero_le m)
        (List.mem_map.mpr ⟨(m, v), hmem, rfl⟩)
        (fun x hx => by
          obtain ⟨kv, hkv, rfl⟩ := List.mem_map.mp hx
          exact hmax kv hkv)
    simp only [localMocksFetch, hidx, if_neg hne, hres]
    rw [lookup_eq_some_of_mem versions m v hnd hmem]
  · intro versions n v hidx hnd hmem
    have hne : versions ≠ [] := by
      intro h
      subst h
      cases hmem
    simp only [localMocksFetch, hidx, if_neg hne]
    rw [lookup_eq_some_of_mem versions n v hnd hmem]
  · intro versions n hidx hne hnone
    simp only [localMocksFetch, hidx, if_neg hne]
    rw [lookup_eq_none_of_forall versions n hnone]
  · intro version hidx
    simp [localMocksFetch, hidx]

/-- Witness for C8: on the index `{("google","p","n"): {1: "v1", 2: "v2"}}`,
`fetch(..., "latest")` returns `"v2"`, `fetch(..., 1)` returns `"v1"`,
`fetch(..., 3)` and a fetch for an absent name raise the two
`MissingLocalMockError` forms. -/
theorem localMocksFetch_spec_witness :
    localMocksFetch [((.google, "p", "n"), [(1, "v1"), (2, "v2")])]
        .google "p" "n" .latest = .ok "v2" ∧
    localMocksFetch [((.google, "p", "n"), [(1, "v1"), (2, "v2")])]
        .google "p" "n" (.num 1) = .ok "v1" ∧
    localMocksFetch [((.google, "p", "n"), [(1, "v1"), (2, "v2")])]
        .google "p" "n" (.num 3) =
      .error (.missingLocalMockKeyVer "google" "p" "n" 3) ∧
    localMocksFetch [((.google, "p", "n"), [(1, "v1"), (2, "v2")])]
        .google "p" "other" .latest =
      .error (.missingLocalMockKey "google" "p" "other") := by
  refine ⟨?_, ?_, ?_, ?_⟩
  · exact (localMocksFetch_spec _ _ _ _).1 [(1, "v1"), (2, "v2")] 2 "v2" rfl
      (by decide) (by decide) (by decide)
  · exact (localMocksFetch_spec _ _ _ _).2.1 [(1, "v1"), (2, "v2")] 1 "v1" rfl
      (by decide) (by decide)
  · exact (localMocksFetch_spec _ _ _ _).2.2.1 [(1, "v1"), (2, "v2")] 3 rfl
      (by decide) (by decide)
  · exact (localMocksFetch_spec _ _ _ _).2.2.2 .latest rfl

/-! ## C10 — passphrase unseal is not total on truncated headers -/

/-- C10: an input that starts with `MAGIC` and the passphrase mode byte `0x01`
but is shorter than the 14-byte fixed header (and, when long enough to carry
one, has KDF id byte `0x01`) makes `unseal_with_passphrase` raise `IndexError`
from header indexing — not an error of the closed
`InvalidEncHeaderError`/`DecryptError` taxonomy. -/
theorem unseal_with_passphrase_truncated_indexError (t : List SByte) (pw : String)
    (hlen : t.length < 8) (hkdf : t = [] ∨ t.get? 0 = some (.raw 1)) :
    unseal_with_passphrase (rawBytes MAGIC ++ SByte.raw 1 :: t) pw =
      .error .indexError := by
  rcases hkdf with rfl | h6
  · rfl
  · obtain ⟨a, t', rfl⟩ : ∃ a t', t = a :: t' := by
      cases t with
      | nil => simp at h6
      | cons a t' => exact ⟨a, t', rfl⟩
    have ha : a = SByte.raw 1 := by simpa using h6
    subst ha
    have h13 : t'[6]? = none := by
      apply List.getElem?_eq_none
      simp at hlen
      omega
    cases h7 : t'[0]? with
    | none => simp [unseal_with_passphrase, rawBytes, MAGIC, h7]
    | some tcB =>
      cases h8 : t'[1]? with
      | none => simp [unseal_with_passphrase, rawBytes, MAGIC, h7, h8]
      | some parB => simp [unseal_with_passphrase, rawBytes, MAGIC, h7, h8, h13]

/-- Witness for C10: the 6-byte input `MAGIC + 0x01` raises `IndexError`. -/
theorem unseal_with_passphrase_truncated_indexError_witness :
    unseal_with_passphrase (rawBytes MAGIC ++ SByte.raw 1 :: []) "pw" =
      .error .indexError :=
  unseal_with_passphrase_truncated_indexError [] "pw" (by decide) (Or.inl rfl)

/-! ## C5 — 5xx retry with exponential backoff -/

/-- A scripted backend outcome in the 5xx bucket. -/
def Is5xxResp (r : GResp) : Prop :=
  r = .exc .serviceUnavailable ∨ r = .exc .internalServerError ∨ r = .exc .badGateway

/-- C5: a backend failure sequence of only 5xx errors makes `fetch` sleep
exactly 0.2 s, 0.4 s, 0.8 s (here in nanoseconds) and raise
`RemoteUnavailableError` once its three retries are exhausted; and for the
script `[ServiceUnavailable, InternalServerError, success]` it sleeps exactly
0.2 s then 0.4 s and returns the success payload. -/
theorem gcpFetch_5xx_backoff (project name : String) (version : VersionM) :
    (∀ r0 r1 r2 r3 rest, Is5xxResp r0 → Is5xxResp r1 → Is5xxResp r2 → Is5xxResp r3 →
       gcpFetch .google project name version (r0 :: r1 :: r2 :: r3 :: rest) =
         (.error .remoteUnavailable, [200000000, 400000000, 800000000])) ∧
    (∀ data, utf8Valid data = true →
       gcpFetch .google project name version
           [.exc .serviceUnavailable, .exc .internalServerError, .ok data] =
         (.ok data, [200000000, 400000000])) := by
  constructor
  · intro r0 r1 r2 r3 rest h0 h1 h2 h3
    rcases h0 with rfl | rfl | rfl <;> rcases h1 with rfl | rfl | rfl <;>
      rcases h2 with rfl | rfl | rfl <;> rcases h3 with rfl | rfl | rfl <;> rfl
  · intro data h
    simp [gcpFetch, gcpFetchGo, h]

/-- Witness for C5: a concrete all-5xx script of length four, and the
concrete success script with payload `b"ok"`. -/
theorem gcpFetch_5xx_backoff_witness :
    gcpFetch .google "p" "n" (.num 1)
        [.exc .serviceUnavailable, .exc .internalServerError, .exc .badGateway,
         .exc .serviceUnavailable] =
      (.error .remoteUnavailable, [200000000, 400000000, 800000000]) ∧
    gcpFetch .google "p" "n" (.num 1)
        [.exc .serviceUnavailable, .exc .internalServerError, .ok [111, 107]] =
      (.ok [111, 107], [200000000, 400000000]) :=
  ⟨(gcpFetch_5xx_backoff "p" "n" (.num 1)).1 _ _ _ _ []
      (Or.inl rfl) (Or.inr (Or.inl rfl)) (Or.inr (Or.inr rfl)) (Or.inl rfl),
   (gcpFetch_5xx_backoff "p" "n" (.num 1)).2 [111, 107] rfl⟩

/-! ## C7 — unclassified backend failures raise the envelope's DecryptError -/

/-- C7 evaluation: an unclassified backend exception is not retried and
triggers no sleep, but the error raised is `DecryptError("remote access
failed")` — the cryptographic-authentication error of the envelope taxonomy,
not a distinct generic access-failure error.  (`provider/gcp.py` line 209.) -/
theorem gcpFetch_unclassified_raises_decryptError :
    gcpFetch .google "p" "n" (.num 1) [.exc .other] =
      (.error (.decryptError "remote access failed"), []) := rfl

/-! ## C4 — key-file resolution precedence -/

/-- C4 counterexample: with a configured key-file path whose file does not
exist while a colocated `local.key` does exist, `_load_local_key` raises
`FileNotFoundError` from reading the configured path — it does not fall
through to the existing candidate (the claim's "first candidate whose file
exists" predicts `.ok [1, 2, 3]`), and the error is not
`MissingKeyMaterialError` either. -/
theorem load_local_key_counterexample :
    load_local_key (some "cfg.key") none "tmp" "home"
        (fun p => if p = "tmp/local.key" then some [1, 2, 3] else none) =
      .error (.fileNotFound "cfg.key") ∧
    (fun p => if p = "tmp/local.key" then some ([1, 2, 3] : List Nat) else none)
        "tmp/local.key" = some [1, 2, 3] ∧
    (Except.error (Err.fileNotFound "cfg.key") ≠
      (.ok [1, 2, 3] : Except Err (List Nat))) ∧
    Err.fileNotFound "cfg.key" ≠ Err.missingKeyMaterial "local key file not found" := by
  refine ⟨rfl, rfl, fun h => Except.noConfusion h, fun h => Err.noConfusion h⟩

/-- C4 amended: key-file resolution tries, in order, (1) the configured path
and (2) the environment-variable path — each *selected* by being configured
(non-empty) and read unconditionally, raising `FileNotFoundError` when the
named file is absent instead of falling through — then (3) the colocated
`local.key` and (4) the default config-directory key, each probed for
existence; `MissingKeyMaterialError` only when no candidate is configured and
neither probed file exists. -/
theorem load_local_key_precedence (kfp env : Option String) (dir home : String)
    (fs : String → Option (List Nat)) :
    (∀ p b, strTruthy kfp = some p → fs p = some b →
       load_local_key kfp env dir home fs = .ok b) ∧
    (∀ p, strTruthy kfp = some p → fs p = none →
       load_local_key kfp env dir home fs = .error (.fileNotFound p)) ∧
    (∀ p b, strTruthy kfp = none → strTruthy env = some p → fs p = some b →
       load_local_key kfp env dir home fs = .ok b) ∧
    (∀ p, strTruthy kfp = none → strTruthy env = some p → fs p = none →
       load_local_key kfp env dir home fs = .error (.fileNotFound p)) ∧
    (∀ b, strTruthy kfp = none → strTruthy env = none →
       fs (dir ++ "/local.key") = some b →
       load_local_key kfp env dir home fs = .ok b) ∧
    (∀ b, strTruthy kfp = none → strTruthy env = none →
       fs (dir ++ "/local.key") = none →
       fs (home ++ "/.config/noctivault/local.key") = some b →
       load_local_key kfp env dir home fs = .ok b) ∧
    (strTruthy kfp = none → strTruthy env = none →
       fs (dir ++ "/local.key") = none →
       fs (home ++ "/.config/noctivault/local.key") = none →
       load_local_key kfp env dir home fs =
         .error (.missingKeyMaterial "local key file not found")) := by
  refine ⟨?_, ?_, ?_, ?_, ?_, ?_, ?_⟩
  · intro p b h1 h2
    simp [load_local_key, h1, readBytes, h2]
  · intro p h1 h2
    simp [load_local_key, h1, readBytes, h2]
  · intro p b h1 h2 h3
    simp [load_local_key, h1, h2, readBytes, h3]
  · intro p h1 h2 h3
    simp [load_local_key, h1, h2, readBytes, h3]
  · intro b h1 h2 h3
    simp [load_local_key, h1, h2, readBytes, h3]
  · intro b h1 h2 h3 h4
    simp [load_local_key, h1, h2, readBytes, h3, h4]
  · intro h1 h2 h3 h4
    simp [load_local_key, h1, h2, readBytes, h3, h4]

/-- Witness for C4's amended statement: a configured-but-missing path raises
`FileNotFoundError`; with nothing configured and nothing on disk the result is
`MissingKeyMaterialError`. -/
theorem load_local_key_precedence_witness :
    load_local_key (some "k") none "d" "h" (fun _ => none) =
      .error (.fileNotFound "k") ∧
    load_local_key none none "d" "h" (fun _ => none) =
      .error (.missingKeyMaterial "local key file not found") :=
  ⟨(load_local_key_precedence (some "k") none "d" "h" (fun _ => none)).2.1
      "k" rfl rfl,
   (load_local_key_precedence none none "d" "h" (fun _ => none)).2.2.2.2.2.2
      rfl rfl rfl rfl⟩

/-! ## C3 — duplicate destination paths -/

/-- Whether a result is a raised `DuplicatePathError`. -/
def isDuplicatePathError {α : Type} : Except Err α → Bool
  | .error (.duplicatePath _) => true
  | _ => false

/-- C3 counterexample: resolving a bare leaf with destination key `a` followed
by a group `a` with child `b` — a leaf-vs-group-key collision with the leaf
first — aborts with Python `TypeError` (from `"b" in cur` where `cur` is the
`SecretValue`), not with `DuplicatePathError` as the claim states. -/
theorem resolve_leaf_then_group_counterexample :
    (resolveT (fun _ _ _ _ => .ok "x")
        [.ref ⟨.google, "p", "a", "s1", .latest, none⟩,
         .group "a" [⟨.google, "p", "b", "s2", .latest, none⟩]]).1 =
      .error .typeError ∧
    isDuplicatePathError
      (resolveT (fun _ _ _ _ => .ok "x")
        [.ref ⟨.google, "p", "a", "s1", .latest, none⟩,
         .group "a" [⟨.google, "p", "b", "s2", .latest, none⟩]]).1 = false :=
  ⟨rfl, rfl⟩

/-- C3 amended: insertion raises `DuplicatePathError` carrying the dot-joined
path whenever the *final* segment key already exists — leaf-vs-leaf, a leaf
landing on an existing group key (group first, then leaf), and duplicate
group children — but in the remaining order (leaf first, then a group with
the same key) the collision happens at the non-final segment, where the code
raises Python `TypeError` from testing membership in a `SecretValue`. -/
theorem place_duplicate_spec (tree : List (String × PyVal)) (a b : String)
    (v : SecretValueM) :
    ((tree.lookup a).isSome = true →
       place tree [a] v = .error (.duplicatePath (joinDot [a]))) ∧
    (∀ sub, tree.lookup a = some (.dict sub) → (sub.lookup b).isSome = true →
       place tree [a, b] v = .error (.duplicatePath (joinDot [a, b]))) ∧
    (∀ sv, tree.lookup a = some (.secret sv) →
       place tree [a, b] v = .error .typeError) ∧
    joinDot [a] = a ∧ joinDot [a, b] = a ++ "." ++ b := by
  refine ⟨?_, ?_, ?_, ?_, ?_⟩
  · intro h
    simp [place, placeGo, h]
  · intro sub h1 h2
    simp [place, placeGo, h1, h2]
  · intro sv h1
    simp [place, placeGo, h1]
  · simp [joinDot, String.intercalate, String.intercalate.go]
  · simp [joinDot, String.intercalate, String.intercalate.go, String.append_assoc]

/-- Witness for C3's amended statement: concrete leaf-vs-leaf, group-then-leaf
and duplicate-group-child collisions, and the `TypeError` deviation. -/
theorem place_duplicate_spec_witness :
    place [("a", .secret ⟨"x", .str⟩)] ["a"] ⟨"y", .str⟩ =
      .error (.duplicatePath "a") ∧
    place [("g", .dict [("b", .secret ⟨"x", .str⟩)])] ["g"] ⟨"y", .str⟩ =
      .error (.duplicatePath "g") ∧
    place [("g", .dict [("b", .secret ⟨"x", .str⟩)])] ["g", "b"] ⟨"y", .str⟩ =
      .error (.duplicatePath "g.b") ∧
    place [("a", .secret ⟨"x", .str⟩)] ["a", "b"] ⟨"y", .str⟩ =
      .error .typeError := by
  refine ⟨?_, ?_, ?_, ?_⟩
  · have h := (place_duplicate_spec [("a", .secret ⟨"x", .str⟩)] "a" "b" ⟨"y", .str⟩).1 rfl
    simpa using h
  · have h := (place_duplicate_spec [("g", .dict [("b", .secret ⟨"x", .str⟩)])]
      "g" "b" ⟨"y", .str⟩).1 rfl
    simpa using h
  · have h := (place_duplicate_spec [("g", .dict [("b", .secret ⟨"x", .str⟩)])]
      "g" "b" ⟨"y", .str⟩).2.1 [("b", .secret ⟨"x", .str⟩)] rfl rfl
    simpa using h
  · exact (place_duplicate_spec [("a", .secret ⟨"x", .str⟩)] "a" "b" ⟨"y", .str⟩).2.2.1
      ⟨"x", .str⟩ rfl

/-! ## C6 — declaration order, fail-fast, atomicity -/

/-- A fully successful fold produces the finished tree with every flattened
entry fetched, in order. -/
lemma resolveGo_of_fold_ok (p : Provider) :
    ∀ (pairs : List (List String × SecretRefM)) (out res : List (String × PyVal)),
      resolveFold p pairs out = .ok res →
      resolveGo p pairs out = (.ok res, pairs.map callOf) := by
  intro pairs
  induction pairs with
  | nil =>
    intro out res h
    simp [resolveFold] at h
    simp [resolveGo, h]
  | cons pr rest ih =>
    intro out res h
    rw [resolveFold] at h
    rw [resolveGo]
    cases hstep : resolveStep p out pr with
    | error e => rw [hstep] at h; exact absurd h (by simp)
    | ok out' =>
      rw [hstep] at h
      simp only [List.map_cons]
      rw [ih out' res h]
      rfl

/-- A fold that first fails at position `j` makes the loop stop there: the
error is returned unmodified and exactly the first `j+1` entries were
fetched. -/
lemma resolveGo_of_fold_err (p : Provider) :
    ∀ (pairs : List (List String × SecretRefM)) (out : List (String × PyVal))
      (j : Nat) (pr : List String × SecretRefM) (t : List (String × PyVal)) (e : Err),
      pairs.get? j = some pr →
      resolveFold p (pairs.take j) out = .ok t →
      resolveStep p t pr = .error e →
      resolveGo p pairs out = (.error e, (pairs.take (j + 1)).map callOf) := by
  intro pairs
  induction pairs with
  | nil =>
    intro out j pr t e hget _ _
    simp at hget
  | cons pr0 rest ih =>
    intro out j pr t e hget hfold hstep
    cases j with
    | zero =>
      simp at hget
      subst hget
      simp [resolveFold] at hfold
      subst hfold
      rw [resolveGo, hstep]
      rfl
    | succ j' =>
      simp only [List.get?_cons_succ] at hget
      rw [List.take_succ_cons, resolveFold] at hfold
      rw [List.take_succ_cons, List.map_cons, resolveGo]
      cases hstep0 : resolveStep p out pr0 with
      | error e0 => rw [hstep0] at hfold; exact absurd hfold (by simp)
      | ok out' =>
        rw [hstep0] at hfold
        have hfold' : resolveFold p (List.take j' rest) out' = .ok t := hfold
        have hrec := ih out' j' pr t e hget hfold' hstep
        show (match resolveGo p rest out' with
              | (res, calls) => (res, callOf pr0 :: calls)) =
          (.error e, callOf pr0 :: List.map callOf (List.take (j' + 1) rest))
        rw [hrec]

/-- C6: `resolve` processes the flattened reference list strictly in
declaration order, issuing one fetch per entry.  When every entry succeeds,
the finished `SecretNode` dict is returned and the fetch trace is exactly the
whole entry list in order; when processing first fails at entry `j` (provider
error, cast error or placement error), the same error propagates unmodified,
exactly the entries up to and including `j` were fetched — none after — and
no tree is returned. -/
theorem resolve_fail_fast (provider : Provider) (entries : List RefEntry) :
    (∀ out, resolveFold provider (flattenRefs entries) [] = .ok out →
       resolveT provider entries = (.ok out, (flattenRefs entries).map callOf)) ∧
    (∀ j pr t e, (flattenRefs entries).get? j = some pr →
       resolveFold provider ((flattenRefs entries).take j) [] = .ok t →
       resolveStep provider t pr = .error e →
       resolveT provider entries =
         (.error e, ((flattenRefs entries).take (j + 1)).map callOf)) :=
  ⟨fun out h => resolveGo_of_fold_ok provider (flattenRefs entries) [] out h,
   fun j pr t e hget hfold hstep =>
     resolveGo_of_fold_err provider (flattenRefs entries) [] j pr t e hget hfold hstep⟩

/-- Witness for C6: with a provider that fails on secret name `"bad"`, a
three-entry reference list whose second entry is bad aborts with the
provider's error after exactly two fetches; the same list without the bad
entry resolves completely with both fetches issued in order. -/
theorem resolve_fail_fast_witness :
    resolveT (fun _ _ n _ => if n = "bad" then .error .authorizationError else .ok "x")
        [.ref ⟨.google, "p", "a", "s1", .latest, none⟩,
         .ref ⟨.google, "p", "b", "bad", .latest, none⟩,
         .ref ⟨.google, "p", "c", "s3", .latest, none⟩] =
      (.error .authorizationError,
       [(.google, "p", "s1", .latest), (.google, "p", "bad", .latest)]) ∧
    resolveT (fun _ _ n _ => if n = "bad" then .error .authorizationError else .ok "x")
        [.ref ⟨.google, "p", "a", "s1", .latest, none⟩,
         .ref ⟨.google, "p", "c", "s3", .latest, none⟩] =
      (.ok [("a", .secret ⟨"x", .str⟩), ("c", .secret ⟨"x", .str⟩)],
       [(.google, "p", "s1", .latest), (.google, "p", "s3", .latest)]) := by
  constructor
  · have h := (resolve_fail_fast
      (fun _ _ n _ => if n = "bad" then .error .authorizationError else .ok "x")
      [.ref ⟨.google, "p", "a", "s1", .latest, none⟩,
       .ref ⟨.google, "p", "b", "bad", .latest, none⟩,
       .ref ⟨.google, "p", "c", "s3", .latest, none⟩]).2
      1 (["b"], ⟨.google, "p", "b", "bad", .latest, none⟩)
      [("a", .secret ⟨"x", .str⟩)] .authorizationError rfl rfl rfl
    simpa using h
  · have h := (resolve_fail_fast
      (fun _ _ n _ => if n = "bad" then .error .authorizationError else .ok "x")
      [.ref ⟨.google, "p", "a", "s1", .latest, none⟩,
       .ref ⟨.google, "p", "c", "s3", .latest, none⟩]).1
      [("a", .secret ⟨"x", .str⟩), ("c", .secret ⟨"x", .str⟩)] rfl
    simpa using h

/-! ## C9 — masked rendering reveals nothing but the key structure -/

/-- The masked projection determined by a tree's shape alone. -/
def maskOfShape : PyOut → PyOut
  | .str _ => .str "***"
  | .int n => .int n
  | .dict es => .dict (maskOfShapeList es)
where
  /-- Masked projections of dict entries. -/
  maskOfShapeList : List (String × PyOut) → List (String × PyOut)
  | [] => []
  | (k, s) :: rest => (k, maskOfShape s) :: maskOfShapeList rest

mutual
/-- `to_dict(False)` factors through the tree's shape: every leaf is masked to
`"***"` and nothing of the raw values survives. -/
lemma toDict_false_eq : (t : PyVal) → toDict false t = .ok (maskOfShape (shape t))
  | .secret v => by simp [toDict, shape, maskOfShape]
  | .dict es => by
    rw [toDict, shape, toDictList_false_eq es]
    rfl

/-- List version of `toDict_false_eq`. -/
lemma toDictList_false_eq : (es : List (String × PyVal)) →
    toDict.toDictList false es =
      .ok (maskOfShape.maskOfShapeList (shape.shapeList es))
  | [] => rfl
  | (k, v) :: rest => by
    rw [toDict.toDictList, toDict_false_eq v, toDictList_false_eq rest]
    rfl
end

/-- C9: the default rendering of a `SecretValue` and of a leaf accessor is the
literal `"***"`, and the default rendering of a resolved tree is the masked
projection: any two trees with identical key structure render identically,
whatever their raw leaf values (two-run noninterference). -/
theorem masked_rendering_noninterference :
    (∀ v : SecretValueM, v.pyRepr = "***" ∧ leafProxyRepr v = "***") ∧
    (∀ t1 t2 : List (String × PyVal), shape (.dict t1) = shape (.dict t2) →
       secretNodeRepr t1 = secretNodeRepr t2) := by
  constructor
  · intro v
    exact ⟨rfl, rfl⟩
  · intro t1 t2 h
    unfold secretNodeRepr
    rw [toDict_false_eq, toDict_false_eq, h]

/-- Witness for C9: two single-leaf trees with different raw secrets render to
the same masked string. -/
theorem masked_rendering_noninterference_witness :
    secretNodeRepr [("password", .secret ⟨"hunter2", .str⟩)] =
      secretNodeRepr [("password", .secret ⟨"swordfish", .str⟩)] :=
  masked_rendering_noninterference.2
    [("password", .secret ⟨"hunter2", .str⟩)]
    [("password", .secret ⟨"swordfish", .str⟩)] rfl

/-! ## Envelope helper lemmas -/

/-- Lifting byte strings into envelope bytes is injective. -/
lemma rawBytes_inj {l1 l2 : List Nat} (h : rawBytes l1 = rawBytes l2) : l1 = l2 :=
  List.map_injective_iff.mpr (fun _ _ hr => SByte.raw.inj hr) h

/-- `data.startswith(MAGIC)` holds on anything extending `MAGIC`. -/
lemma magic_isPrefixOf (t : List SByte) :
    (rawBytes MAGIC).isPrefixOf (rawBytes MAGIC ++ t) = true := by
  rw [List.isPrefixOf_iff_prefix]
  exact List.prefix_append _ _

/-- Ideal-AEAD round trip: decrypting with the sealing key, nonce and AAD
recovers the plaintext. -/
lemma aeadDecrypt_encrypt (key : KeyM) (nonce pt aad : List Nat) :
    aeadDecrypt key (rawBytes nonce) (aeadEncrypt key nonce pt aad) aad = some pt := by
  simp [aeadDecrypt, aeadEncrypt, List.getLast?_concat, List.dropLast_concat]

/-- Decryption under a different nonce fails. -/
lemma aeadDecrypt_wrong_nonce (key : KeyM) (nonce pt aad : List Nat)
    (n' : List SByte) (h : n' ≠ rawBytes nonce) :
    aeadDecrypt key n' (aeadEncrypt key nonce pt aad) aad = none := by
  simp [aeadDecrypt, aeadEncrypt, List.getLast?_concat, List.dropLast_concat, h]

/-- Decryption under a different key fails. -/
lemma aeadDecrypt_wrong_key (key key' : KeyM) (nonce pt aad : List Nat)
    (n' : List SByte) (h : key ≠ key') :
    aeadDecrypt key' n' (aeadEncrypt key nonce pt aad) aad = none := by
  simp [aeadDecrypt, aeadEncrypt, List.getLast?_concat, List.dropLast_concat, h]

/-- A ciphertext whose plaintext bytes no longer match the tag fails. -/
lemma aeadDecrypt_modified_pt (key : KeyM) (nonce aad pt pt' : List Nat)
    (n' : List SByte) (h : pt' ≠ pt) :
    aeadDecrypt key n' (rawBytes pt' ++ [SByte.tag key nonce aad pt]) aad = none := by
  have hp : rawBytes pt' ≠ rawBytes pt := fun hp => h (rawBytes_inj hp)
  simp [aeadDecrypt, List.getLast?_concat, List.dropLast_concat, hp]

/-- A ciphertext ending in an ordinary byte (a destroyed tag) fails. -/
lemma aeadDecrypt_raw_last (key : KeyM) (aad : List Nat) (n' l : List SByte) (m : Nat) :
    aeadDecrypt key n' (l ++ [SByte.raw m]) aad = none := by
  simp [aeadDecrypt, List.getLast?_concat]

/-- Dropping the first ciphertext byte (the shifted parse after a spurious
mode byte) always fails, under any nonce, key and AAD. -/
lemma aeadDecrypt_drop_one (key key2 : KeyM) (nonce pt aad aad2 : List Nat)
    (n' : List SByte) :
    aeadDecrypt key2 n' ((aeadEncrypt key nonce pt aad).drop 1) aad2 = none := by
  cases pt with
  | nil => simp [aeadEncrypt, aeadDecrypt, rawBytes]
  | cons q qs =>
    have hdrop : (aeadEncrypt key (nonce) (q :: qs) aad).drop 1 =
        rawBytes qs ++ [SByte.tag key nonce aad (q :: qs)] := by
      simp [aeadEncrypt, rawBytes]
    rw [hdrop]
    have hp : rawBytes qs ≠ rawBytes (q :: qs) := fun hp =>
      (List.cons_ne_self q qs).symm (rawBytes_inj hp)
    simp [aeadDecrypt, List.getLast?_concat, List.dropLast_concat, hp]

/-- Parse of a key-file envelope whose first nonce byte is neither `0x00` nor
`0x01`: the mode sniff does not fire and the nonce/ciphertext split is the
sealed one. -/
lemma unseal_with_key_parse (key : KeyM) (n0 : Nat) (ns : List Nat) (ct : List SByte)
    (hlen : ns.length = 11) (h0 : n0 ≠ 0) (h1 : n0 ≠ 1) :
    unseal_with_key (rawBytes MAGIC ++ rawBytes (n0 :: ns) ++ ct) key =
      match aeadDecrypt key (rawBytes (n0 :: ns)) ct MAGIC with
      | some pt => .ok pt
      | none => .error (.decryptError "decryption failed") := by
  have hlen' : (List.map SByte.raw ns).length = 11 := by simp [hlen]
  have hA : rawBytes MAGIC ++ rawBytes (n0 :: ns) ++ ct =
      .raw 78 :: .raw 86 :: .raw 76 :: .raw 69 :: .raw 49 :: .raw n0 ::
        (List.map SByte.raw ns ++ ct) := by
    simp [rawBytes, MAGIC]
  rw [hA]
  simp [unseal_with_key, rawBytes, MAGIC, List.isPrefixOf, NONCE_SIZE, h0, h1,
    List.take_left' hlen', List.drop_left' hlen']

/-- Parse of a mode-tagged (`0x00`) key-file envelope: the mode byte is
skipped and the nonce/ciphertext split follows it. -/
lemma unseal_with_key_parse_tagged (key : KeyM) (nonce : List Nat) (ct : List SByte)
    (hlen : nonce.length = 12) :
    unseal_with_key (rawBytes MAGIC ++ SByte.raw 0 :: (rawBytes nonce ++ ct)) key =
      match aeadDecrypt key (rawBytes nonce) ct MAGIC with
      | some pt => .ok pt
      | none => .error (.decryptError "decryption failed") := by
  have hlen' : (List.map SByte.raw nonce).length = 12 := by simp [hlen]
  have hA : rawBytes MAGIC ++ SByte.raw 0 :: (rawBytes nonce ++ ct) =
      .raw 78 :: .raw 86 :: .raw 76 :: .raw 69 :: .raw 49 :: .raw 0 ::
        (List.map SByte.raw nonce ++ ct) := by
    simp [rawBytes, MAGIC]
  rw [hA]
  simp [unseal_with_key, rawBytes, MAGIC, List.isPrefixOf, NONCE_SIZE,
    List.take_left' hlen', List.drop_left' hlen']

/-- A key-file payload with mode byte `0x01` is rejected as "not key-file
mode payload", whatever follows. -/
lemma unseal_with_key_mode1 (key : KeyM) (rest : List SByte) :
    unseal_with_key (rawBytes MAGIC ++ SByte.raw 1 :: rest) key =
      .error (.invalidEncHeader "not key-file mode payload") := by
  have hpre : (rawBytes MAGIC).isPrefixOf (rawBytes MAGIC ++ SByte.raw 1 :: rest) = true :=
    magic_isPrefixOf _
  have h5 : (rawBytes MAGIC ++ SByte.raw 1 :: rest).get? 5 = some (.raw 1) := by
    simp [rawBytes, MAGIC]
  rw [unseal_with_key, if_neg (by simp [hpre]), if_pos h5]

/-- Parse of a key-file envelope whose first nonce byte is `0x00`: the mode
sniff fires spuriously, the parsed nonce absorbs the next 12 bytes and the
parsed ciphertext loses its first byte. -/
lemma unseal_with_key_parse_zero (key : KeyM) (ns : List Nat) (ct : List SByte)
    (hlen : ns.length = 11) :
    unseal_with_key (rawBytes MAGIC ++ rawBytes (0 :: ns) ++ ct) key =
      match aeadDecrypt key ((List.map SByte.raw ns ++ ct).take 12) (ct.drop 1) MAGIC with
      | some pt => .ok pt
      | none => .error (.decryptError "decryption failed") := by
  have hlen' : (List.map SByte.raw ns).length = 11 := by simp [hlen]
  have hA : rawBytes MAGIC ++ rawBytes (0 :: ns) ++ ct =
      .raw 78 :: .raw 86 :: .raw 76 :: .raw 69 :: .raw 49 :: .raw 0 ::
        (List.map SByte.raw ns ++ ct) := by
    simp [rawBytes, MAGIC]
  have hct : (List.map SByte.raw ns ++ ct).drop 12 = ct.drop 1 := by
    rw [show (12 : Nat) = 11 + 1 from rfl, ← List.drop_drop, List.drop_left' hlen']
  rw [hA]
  simp [unseal_with_key, rawBytes, MAGIC, List.isPrefixOf, NONCE_SIZE, hct]

/-- `(rawBytes l)` viewed back through Python integer indexing is `l`. -/
lemma map_toNatVal_rawBytes (l : List Nat) :
    (List.map SByte.raw l).map SByte.toNatVal = l := by
  rw [List.map_map]
  have hcomp : SByte.toNatVal ∘ SByte.raw = id := funext fun _ => rfl
  rw [hcomp, List.map_id]

/-- Layout of a sealed passphrase envelope with a 16-byte salt: fixed header
`MAGIC | 0x01 | 0x01 | tc=2 | par=1 | mc=65536 BE | saltLen=16`, then salt,
nonce and ciphertext. -/
lemma seal_with_passphrase_layout (pt : List Nat) (pw : String) (salt nonce : List Nat)
    (hs : salt.length = 16) :
    seal_with_passphrase pt pw salt nonce =
      rawBytes MAGIC ++ rawBytes [1, 1, 2, 1] ++ rawBytes [0, 1, 0, 0] ++
        rawBytes [16] ++ rawBytes salt ++ rawBytes nonce ++
        aeadEncrypt (kdfArgon2id pw salt 2 65536 1) nonce pt MAGIC := by
  rw [seal_with_passphrase, hs]
  norm_num

/-- Parse of a passphrase envelope with the default header, a 16-byte salt and
a 12-byte nonce: the key is re-derived from the parsed salt and cost
parameters, and the nonce/ciphertext split follows the salt. -/
lemma unseal_with_passphrase_parse (pw : String) (salt nonce : List Nat)
    (ct : List SByte) (hs : salt.length = 16) (hn : nonce.length = 12) :
    unseal_with_passphrase
        (rawBytes MAGIC ++ rawBytes [1, 1, 2, 1] ++ rawBytes [0, 1, 0, 0] ++
          rawBytes [16] ++ rawBytes salt ++ rawBytes nonce ++ ct) pw =
      match aeadDecrypt (kdfArgon2id pw salt 2 65536 1) (rawBytes nonce) ct MAGIC with
      | some pt => .ok pt
      | none => .error (.decryptError "decryption failed") := by
  have hsl : (List.map SByte.raw salt).length = 16 := by simp [hs]
  have hnl : (List.map SByte.raw nonce).length = 12 := by simp [hn]
  have hA : rawBytes MAGIC ++ rawBytes [1, 1, 2, 1] ++ rawBytes [0, 1, 0, 0] ++
      rawBytes [16] ++ rawBytes salt ++ rawBytes nonce ++ ct =
      .raw 78 :: .raw 86 :: .raw 76 :: .raw 69 :: .raw 49 :: .raw 1 :: .raw 1 ::
        .raw 2 :: .raw 1 :: .raw 0 :: .raw 1 :: .raw 0 :: .raw 0 :: .raw 16 ::
        (List.map SByte.raw salt ++ (List.map SByte.raw nonce ++ ct)) := by
    simp [rawBytes, MAGIC]
  have hsalt : ((List.map SByte.raw salt ++ (List.map SByte.raw nonce ++ ct)).take 16).map
      SByte.toNatVal = salt := by
    rw [List.take_left' hsl, map_toNatVal_rawBytes]
  have hnonce : ((List.map SByte.raw salt ++ (List.map SByte.raw nonce ++ ct)).drop 16).take 12 =
      List.map SByte.raw nonce := by
    rw [List.drop_left' hsl, List.take_left' hnl]
  have hct : (List.map SByte.raw salt ++ (List.map SByte.raw nonce ++ ct)).drop 28 = ct := by
    rw [show (28 : Nat) = 16 + 12 from rfl, ← List.drop_drop, List.drop_left' hsl,
      List.drop_left' hnl]
  rw [hA]
  simp [unseal_with_passphrase, rawBytes, MAGIC, List.isPrefixOf, NONCE_SIZE,
    fromBytesBE, SByte.toNatVal, hsalt, hnonce, hct]

/-! ## C1 — key-file round trip and mode-byte acceptance -/

/-- C1 counterexample: the 12-byte nonce `01 00 .. 00` — a value
`os.urandom(12)` can produce — makes the round trip fail: `seal_with_key`
writes the legacy layout, and `unseal_with_key` mistakes the first nonce byte
for a passphrase mode tag and rejects the payload with
`InvalidEncHeaderError` instead of returning the plaintext. -/
theorem seal_unseal_key_counterexample :
    unseal_with_key
        (seal_with_key [42] (.bytes (List.replicate 32 7)) (1 :: List.replicate 11 0))
        (.bytes (List.replicate 32 7)) =
      .error (.invalidEncHeader "not key-file mode payload") ∧
    (1 :: List.replicate 11 0).length = 12 ∧
    ((1 :: List.replicate 11 0).all fun b => decide (b < 256)) = true :=
  ⟨rfl, by decide, by decide⟩

/-- C1 amended: the key-file round trip
`unseal_with_key (seal_with_key pt key nonce) key = pt` holds for every
256-bit key and every 12-byte nonce whose first byte is neither `0x00` nor
`0x01` (nonces starting `0x00` or `0x01` — about 2⁻⁷ of `os.urandom`
outputs — are misparsed by the mode sniff); a payload with an explicit
key-file mode byte `0x00` after `MAGIC` is accepted by skipping it; a payload
with the passphrase mode byte `0x01` fails with
`InvalidEncHeaderError("not key-file mode payload")`. -/
theorem seal_unseal_key_roundtrip :
    (∀ (pt : List Nat) (key : KeyM) (n0 : Nat) (ns : List Nat),
       (n0 :: ns).length = 12 → n0 ≠ 0 → n0 ≠ 1 →
       unseal_with_key (seal_with_key pt key (n0 :: ns)) key = .ok pt) ∧
    (∀ (pt nonce : List Nat) (key : KeyM), nonce.length = 12 →
       unseal_with_key
         (rawBytes MAGIC ++ SByte.raw 0 ::
           (rawBytes nonce ++ aeadEncrypt key nonce pt MAGIC)) key = .ok pt) ∧
    (∀ (rest : List SByte) (key : KeyM),
       unseal_with_key (rawBytes MAGIC ++ SByte.raw 1 :: rest) key =
         .error (.invalidEncHeader "not key-file mode payload")) := by
  refine ⟨?_, ?_, ?_⟩
  · intro pt key n0 ns hlen h0 h1
    have hlen' : ns.length = 11 := by simpa using hlen
    rw [seal_with_key, unseal_with_key_parse key n0 ns _ hlen' h0 h1,
      aeadDecrypt_encrypt]
  · intro pt nonce key hlen
    rw [unseal_with_key_parse_tagged key nonce _ hlen, aeadDecrypt_encrypt]
  · intro rest key
    exact unseal_with_key_mode1 key rest

/-- Witness for C1's amended statement at a concrete key, nonce and
plaintext, covering all three conjuncts. -/
theorem seal_unseal_key_roundtrip_witness :
    unseal_with_key
        (seal_with_key [10, 20] (.bytes (List.replicate 32 7)) (5 :: List.replicate 11 0))
        (.bytes (List.replicate 32 7)) = .ok [10, 20] ∧
    unseal_with_key
        (rawBytes MAGIC ++ SByte.raw 0 ::
          (rawBytes (5 :: List.replicate 11 0) ++
            aeadEncrypt (.bytes [1]) (5 :: List.replicate 11 0) [9] MAGIC))
        (.bytes [1]) = .ok [9] ∧
    unseal_with_key (rawBytes MAGIC ++ SByte.raw 1 :: []) (.bytes [1]) =
      .error (.invalidEncHeader "not key-file mode payload") :=
  ⟨seal_unseal_key_roundtrip.1 [10, 20] (.bytes (List.replicate 32 7)) 5
      (List.replicate 11 0) (by decide) (by decide) (by decide),
   seal_unseal_key_roundtrip.2.1 [9] (5 :: List.replicate 11 0) (.bytes [1])
      (by decide),
   seal_unseal_key_roundtrip.2.2 [] (.bytes [1])⟩

/-! ## C2 — single-byte tampering with a sealed envelope -/

/-- C2 counterexample: a sealed key-file envelope whose nonce starts with
byte `0x03` still unseals correctly, but flipping bit 1 of that byte (giving
`0x01`, the passphrase mode tag) makes `unseal_with_key` raise
`InvalidEncHeaderError` — not the `DecryptError` the claim promises for every
single-bit flip in the nonce region. -/
theorem bitflip_nonce_counterexample :
    unseal_with_key
        (seal_with_key [42] (.bytes (List.replicate 32 7)) (3 :: List.replicate 11 0))
        (.bytes (List.replicate 32 7)) = .ok [42] ∧
    (seal_with_key [42] (.bytes (List.replicate 32 7))
        (3 :: List.replicate 11 0)).get? 5 = some (.raw 3) ∧
    (3 ^^^ 2 : Nat) = 1 ∧
    unseal_with_key
        ((seal_with_key [42] (.bytes (List.replicate 32 7))
           (3 :: List.replicate 11 0)).set 5 (.raw (3 ^^^ 2)))
        (.bytes (List.replicate 32 7)) =
      .error (.invalidEncHeader "not key-file mode payload") :=
  ⟨rfl, rfl, rfl, rfl⟩

/-- C2 amended: changing any single byte of the nonce or ciphertext/tag
region of a sealed key-file envelope, or of the salt, nonce or
ciphertext/tag region of a sealed passphrase envelope, and unsealing with the
original correct key material yields `DecryptError` — never a silently wrong
plaintext — with one exception forced by the mode sniff: changing the *first*
nonce byte of a key-file envelope to `0x01` yields `InvalidEncHeaderError`
instead.  (Key-file envelopes are taken with a first nonce byte outside
`{0x00, 0x01}`, the well-parsed ones per the amended C1.)  The passphrase
conjuncts are stated over the explicit envelope layout, which the fifth
conjunct identifies with `seal_with_passphrase`. -/
theorem bitflip_tampering_detected :
    (∀ (pt : List Nat) (key : KeyM) (n0 : Nat) (np : List Nat) (b m : Nat) (ns : List Nat),
       (n0 :: (np ++ b :: ns)).length = 12 → n0 ≠ 0 → n0 ≠ 1 → m ≠ b →
       unseal_with_key
         (rawBytes MAGIC ++ rawBytes (n0 :: (np ++ m :: ns)) ++
           aeadEncrypt key (n0 :: (np ++ b :: ns)) pt MAGIC) key =
         .error (.decryptError "decryption failed")) ∧
    (∀ (pt : List Nat) (key : KeyM) (n0 : Nat) (ns : List Nat) (m : Nat),
       (n0 :: ns).length = 12 → n0 ≠ 0 → n0 ≠ 1 → m ≠ n0 → m ≠ 1 →
       unseal_with_key
         (rawBytes MAGIC ++ rawBytes (m :: ns) ++
           aeadEncrypt key (n0 :: ns) pt MAGIC) key =
         .error (.decryptError "decryption failed")) ∧
    (∀ (key : KeyM) (n0 : Nat) (ns pt1 pt2 : List Nat) (c m : Nat),
       (n0 :: ns).length = 12 → n0 ≠ 0 → n0 ≠ 1 → m ≠ c →
       unseal_with_key
         (rawBytes MAGIC ++ rawBytes (n0 :: ns) ++
           (rawBytes (pt1 ++ m :: pt2) ++
             [SByte.tag key (n0 :: ns) MAGIC (pt1 ++ c :: pt2)])) key =
         .error (.decryptError "decryption failed")) ∧
    (∀ (key : KeyM) (n0 : Nat) (ns pt : List Nat) (m : Nat),
       (n0 :: ns).length = 12 → n0 ≠ 0 → n0 ≠ 1 →
       unseal_with_key
         (rawBytes MAGIC ++ rawBytes (n0 :: ns) ++ (rawBytes pt ++ [SByte.raw m]))
         key = .error (.decryptError "decryption failed")) ∧
    (∀ (pt : List Nat) (pw : String) (salt nonce : List Nat), salt.length = 16 →
       seal_with_passphrase pt pw salt nonce =
         rawBytes MAGIC ++ rawBytes [1, 1, 2, 1] ++ rawBytes [0, 1, 0, 0] ++
           rawBytes [16] ++ rawBytes salt ++ rawBytes nonce ++
           aeadEncrypt (kdfArgon2id pw salt 2 65536 1) nonce pt MAGIC) ∧
    (∀ (pt : List Nat) (pw : String) (s1 : List Nat) (c m : Nat) (s2 nonce : List Nat),
       (s1 ++ c :: s2).length = 16 → nonce.length = 12 → m ≠ c →
       unseal_with_passphrase
         (rawBytes MAGIC ++ rawBytes [1, 1, 2, 1] ++ rawBytes [0, 1, 0, 0] ++
           rawBytes [16] ++ rawBytes (s1 ++ m :: s2) ++ rawBytes nonce ++
           aeadEncrypt (kdfArgon2id pw (s1 ++ c :: s2) 2 65536 1) nonce pt MAGIC) pw =
         .error (.decryptError "decryption failed")) ∧
    (∀ (pt : List Nat) (pw : String) (salt n1 : List Nat) (c m : Nat) (n2 : List Nat),
       salt.length = 16 → (n1 ++ c :: n2).length = 12 → m ≠ c →
       unseal_with_passphrase
         (rawBytes MAGIC ++ rawBytes [1, 1, 2, 1] ++ rawBytes [0, 1, 0, 0] ++
           rawBytes [16] ++ rawBytes salt ++ rawBytes (n1 ++ m :: n2) ++
           aeadEncrypt (kdfArgon2id pw salt 2 65536 1) (n1 ++ c :: n2) pt MAGIC) pw =
         .error (.decryptError "decryption failed")) ∧
    (∀ (pw : String) (salt nonce pt1 pt2 : List Nat) (c m : Nat),
       salt.length = 16 → nonce.length = 12 → m ≠ c →
       unseal_with_passphrase
         (rawBytes MAGIC ++ rawBytes [1, 1, 2, 1] ++ rawBytes [0, 1, 0, 0] ++
           rawBytes [16] ++ rawBytes salt ++ rawBytes nonce ++
           (rawBytes (pt1 ++ m :: pt2) ++
             [SByte.tag (kdfArgon2id pw salt 2 65536 1) nonce MAGIC
               (pt1 ++ c :: pt2)])) pw =
         .error (.decryptError "decryption failed")) ∧
    (∀ (pw : String) (salt nonce pt : List Nat) (m : Nat),
       salt.length = 16 → nonce.length = 12 →
       unseal_with_passphrase
         (rawBytes MAGIC ++ rawBytes [1, 1, 2, 1] ++ rawBytes [0, 1, 0, 0] ++
           rawBytes [16] ++ rawBytes salt ++ rawBytes nonce ++
           (rawBytes pt ++ [SByte.raw m])) pw =
         .error (.decryptError "decryption failed")) := by
  refine ⟨?_, ?_, ?_, ?_, ?_, ?_, ?_, ?_, ?_⟩
  · -- key-file, nonce flip at a non-head position
    intro pt key n0 np b m ns hlen h0 h1 hm
    have hlen' : (np ++ m :: ns).length = 11 := by
      simp at hlen ⊢
      omega
    have hne : (n0 :: (np ++ m :: ns)) ≠ (n0 :: (np ++ b :: ns)) := by
      intro h
      have h1 := ((List.cons.injEq ..).mp h).2
      have h2 := List.append_cancel_left h1
      exact hm ((List.cons.injEq ..).mp h2).1
    rw [unseal_with_key_parse key n0 (np ++ m :: ns) _ hlen' h0 h1,
      aeadDecrypt_wrong_nonce key (n0 :: (np ++ b :: ns)) pt MAGIC _
        fun hr => hne (rawBytes_inj hr)]
  · -- key-file, nonce flip at the head position (excluded flip-to-0x01)
    intro pt key n0 ns m hlen h0 h1 hm hm1
    have hlen' : ns.length = 11 := by simpa using hlen
    by_cases hm0 : m = 0
    · subst hm0
      rw [unseal_with_key_parse_zero key ns _ hlen',
        aeadDecrypt_drop_one key key (n0 :: ns) pt MAGIC MAGIC _]
    · have hne : (m :: ns) ≠ (n0 :: ns) := by
        intro h
        exact hm ((List.cons.injEq ..).mp h).1
      rw [unseal_with_key_parse key m ns _ hlen' hm0 hm1,
        aeadDecrypt_wrong_nonce key (n0 :: ns) pt MAGIC _
          fun hr => hne (rawBytes_inj hr)]
  · -- key-file, ciphertext byte flip
    intro key n0 ns pt1 pt2 c m hlen h0 h1 hm
    have hlen' : ns.length = 11 := by simpa using hlen
    have hne : (pt1 ++ m :: pt2) ≠ (pt1 ++ c :: pt2) := by
      intro h
      have h2 := List.append_cancel_left h
      exact hm ((List.cons.injEq ..).mp h2).1
    rw [unseal_with_key_parse key n0 ns _ hlen' h0 h1,
      aeadDecrypt_modified_pt key (n0 :: ns) MAGIC (pt1 ++ c :: pt2)
        (pt1 ++ m :: pt2) _ hne]
  · -- key-file, tag byte flip
    intro key n0 ns pt m hlen h0 h1
    have hlen' : ns.length = 11 := by simpa using hlen
    rw [unseal_with_key_parse key n0 ns _ hlen' h0 h1,
      aeadDecrypt_raw_last key MAGIC _ (rawBytes pt) m]
  · -- passphrase envelope layout
    intro pt pw salt nonce hs
    exact seal_with_passphrase_layout pt pw salt nonce hs
  · -- passphrase, salt byte flip
    intro pt pw s1 c m s2 nonce hs hn hm
    have hs' : (s1 ++ m :: s2).length = 16 := by
      simp at hs ⊢
      omega
    have hne : kdfArgon2id pw (s1 ++ c :: s2) 2 65536 1 ≠
        kdfArgon2id pw (s1 ++ m :: s2) 2 65536 1 := by
      intro h
      have h2 := (KeyM.kdf.injEq ..).mp h
      have h3 := List.append_cancel_left h2.2.1
      exact hm ((List.cons.injEq ..).mp h3).1.symm
    rw [unseal_with_passphrase_parse pw (s1 ++ m :: s2) nonce _ hs' hn,
      aeadDecrypt_wrong_key (kdfArgon2id pw (s1 ++ c :: s2) 2 65536 1)
        (kdfArgon2id pw (s1 ++ m :: s2) 2 65536 1) nonce pt MAGIC _ hne]
  · -- passphrase, nonce byte flip
    intro pt pw salt n1 c m n2 hs hn hm
    have hn' : (n1 ++ m :: n2).length = 12 := by
      simp at hn ⊢
      omega
    have hne : (n1 ++ m :: n2) ≠ (n1 ++ c :: n2) := by
      intro h
      have h2 := List.append_cancel_left h
      exact hm ((List.cons.injEq ..).mp h2).1
    rw [unseal_with_passphrase_parse pw salt (n1 ++ m :: n2) _ hs hn',
      aeadDecrypt_wrong_nonce (kdfArgon2id pw salt 2 65536 1) (n1 ++ c :: n2)
        pt MAGIC _ fun hr => hne (rawBytes_inj hr)]
  · -- passphrase, ciphertext byte flip
    intro pw salt nonce pt1 pt2 c m hs hn hm
    have hne : (pt1 ++ m :: pt2) ≠ (pt1 ++ c :: pt2) := by
      intro h
      have h2 := List.append_cancel_left h
      exact hm ((List.cons.injEq ..).mp h2).1
    rw [unseal_with_passphrase_parse pw salt nonce _ hs hn,
      aeadDecrypt_modified_pt (kdfArgon2id pw salt 2 65536 1) nonce MAGIC
        (pt1 ++ c :: pt2) (pt1 ++ m :: pt2) _ hne]
  · -- passphrase, tag byte flip
    intro pw salt nonce pt m hs hn
    rw [unseal_with_passphrase_parse pw salt nonce _ hs hn,
      aeadDecrypt_raw_last (kdfArgon2id pw salt 2 65536 1) MAGIC _ (rawBytes pt) m]

/-- Witness for C2's amended statement: concrete single-bit flips in a
key-file nonce byte (9 → 8), a key-file ciphertext byte (42 → 43) and a
passphrase salt byte (4 → 5) each produce `DecryptError`. -/
theorem bitflip_tampering_detected_witness :
    unseal_with_key
        (rawBytes MAGIC ++ rawBytes (5 :: ([] ++ 8 :: List.replicate 10 0)) ++
          aeadEncrypt (.bytes [1]) (5 :: ([] ++ 9 :: List.replicate 10 0)) [42] MAGIC)
        (.bytes [1]) = .error (.decryptError "decryption failed") ∧
    unseal_with_key
        (rawBytes MAGIC ++ rawBytes (5 :: List.replicate 11 0) ++
          (rawBytes ([] ++ 43 :: []) ++
            [SByte.tag (.bytes [1]) (5 :: List.replicate 11 0) MAGIC ([] ++ 42 :: [])]))
        (.bytes [1]) = .error (.decryptError "decryption failed") ∧
    unseal_with_passphrase
        (rawBytes MAGIC ++ rawBytes [1, 1, 2, 1] ++ rawBytes [0, 1, 0, 0] ++
          rawBytes [16] ++ rawBytes ([] ++ 5 :: List.replicate 15 0) ++
          rawBytes (List.replicate 12 0) ++
          aeadEncrypt (kdfArgon2id "pw" ([] ++ 4 :: List.replicate 15 0) 2 65536 1)
            (List.replicate 12 0) [42] MAGIC) "pw" =
      .error (.decryptError "decryption failed") :=
  ⟨bitflip_tampering_detected.1 [42] (.bytes [1]) 5 [] 9 8 (List.replicate 10 0)
      (by decide) (by decide) (by decide) (by decide),
   bitflip_tampering_detected.2.2.1 (.bytes [1]) 5 (List.replicate 11 0) [] [] 42 43
      (by decide) (by decide) (by decide) (by decide),
   bitflip_tampering_detected.2.2.2.2.2.1 [42] "pw" [] 4 5 (List.replicate 15 0)
      (List.replicate 12 0) (by decide) (by decide) (by decide)⟩

end Noctivault
